import Mathlib

/-!
Shallow embedding of the stock-analysis pipeline in `src/main.py`
(`fetch_stock_data`, the in-place info sanitization loop, the prompt
template of `generate_report_with_llm`, and the guarded Groq call),
together with theorems settling the specification claims.

External collaborators (yfinance, pandas, the Groq client) are modelled
as oracles: a pandas DataFrame is abstracted by its emptiness flag and
the strings its rendering methods produce, and every provider attribute
access is an `Except` value (`.error e` models a raised exception whose
message is `e`, `.ok` a normal return).
-/

set_option autoImplicit false
set_option maxRecDepth 100000

namespace Finance

/-- Python values as they occur in the `stock.info` mapping.

Scalars (`str`, `int`, `float`, `bool`, `None`) are JSON-serializable and
the sanitization loop in `fetch_stock_data` (src/main.py lines 37-48)
leaves them untouched.  Every non-scalar value is modelled by `vcomplex`:
`headIsDict` records whether it is a non-empty list whose first element is
a dict (the `if` branch of the loop; every other non-scalar falls to the
`elif` branch), `serializable` records whether `json.dumps` succeeds on
it, and `text` is its Python `str(value)` rendering.  Floats are never
computed with here, so a float is carried as its literal rendering. -/
inductive PyVal where
  | vstr (s : String)
  | vint (n : Int)
  | vfloat (text : String)
  | vbool (b : Bool)
  | vnone
  | vcomplex (headIsDict : Bool) (serializable : Bool) (text : String)
  deriving DecidableEq

/-- Python `str(value)` as used by f-string substitution. -/
def pyFormat : PyVal → String
  | .vstr s => s
  | .vint n => toString n
  | .vfloat t => t
  | .vbool b => if b then "True" else "False"
  | .vnone => "None"
  | .vcomplex _ _ t => t

/-- Is the value already in the form the sanitization loop leaves alone?
Scalars always are; a non-scalar survives iff `json.dumps` accepts it. -/
def serializable_now : PyVal → Bool
  | .vcomplex _ ser _ => ser
  | _ => true

/-- The per-value action of the sanitization loop (src/main.py lines 37-48).
A non-empty list of dicts (`headIsDict = true`, the `if` branch) is tested
with `json.dumps(value)`; any other non-scalar (the `elif` branch) with
`json.dumps({key: value})`, which succeeds exactly when `json.dumps(value)`
does.  Either way a failing value is replaced by `str(value)` and a
passing one is kept. -/
def sanitizeVal : PyVal → PyVal
  | .vcomplex h ser text => if ser then .vcomplex h ser text else .vstr text
  | v => v

/-- The `stock.info` mapping: an insertion-ordered dict, modelled as an
association list with the dict's key order. -/
abbrev Info := List (String × PyVal)

/-- State of the `info` dict after the sanitization loop of
`fetch_stock_data` (src/main.py lines 37-48).  The Python loop assigns
`info[key] = str(value)` in place, so the value returned here is also the
post-loop state of the caller-visible dict object itself (the same object
is stored as `full_info_dump_for_display` and read by every later
`info.get`). -/
def sanitizeInfo (info : Info) : Info :=
  info.map (fun kv => (kv.1, sanitizeVal kv.2))

/-- Python `info.get(k, default)`: the first binding of `k`, else the default. -/
def getD (info : Info) (k : String) (default : PyVal) : PyVal :=
  (info.lookup k).getD default

/-- A pandas DataFrame as the pipeline observes it: whether it is empty,
and the fixed strings its renderings produce (`to_string()`,
`tail().to_string()`, `iloc[:, :2].to_string()`). -/
structure DataFrame where
  isEmpty : Bool
  text : String
  tailText : String
  firstTwoColsText : String
  deriving DecidableEq

/-- One yfinance `Ticker`'s attribute accesses, each modelled as an
`Except`: `.error e` is a raised exception with message `e`; for the
table-valued attributes `.ok none` is a `None` return and `.ok (some df)`
a DataFrame. -/
structure ProviderData where
  info : Except String Info
  history_1y : Except String DataFrame
  major_holders : Except String (Option DataFrame)
  recommendations : Except String (Option DataFrame)
  quarterly_income_stmt : Except String (Option DataFrame)
  quarterly_balance_sheet : Except String (Option DataFrame)
  quarterly_cashflow : Except String (Option DataFrame)

/-- The `major_holders` block of `fetch_stock_data` (src/main.py lines
53-60): starts as `None`; on a normal, non-empty table it becomes the
table's rendering; a `None` or empty table leaves it `None`; an exception
is caught and yields the sentinel string. -/
def major_holders_of (r : Except String (Option DataFrame)) : Option String :=
  match r with
  | .error _ => some "Not available or error fetching."
  | .ok none => none
  | .ok (some df) => if df.isEmpty then none else some df.text

/-- The `recommendations` block of `fetch_stock_data` (src/main.py lines
62-71): a normal non-empty table renders its last five rows; a `None` or
empty table yields the no-data message; an exception is caught and yields
the sentinel string. -/
def recommendations_of (r : Except String (Option DataFrame)) : String :=
  match r with
  | .error _ => "Not available or error fetching."
  | .ok none => "No recommendations data available."
  | .ok (some df) =>
      if df.isEmpty then "No recommendations data available." else df.tailText

/-- The `financials_summary` dict (src/main.py lines 73-82), whose three
keys are always populated. -/
structure FinancialsSummary where
  income_statement_quarterly : String
  balance_sheet_quarterly : String
  cash_flow_quarterly : String
  deriving DecidableEq

/-- One quarterly-statement entry on the normal path: `None` or empty
gives "Not available", otherwise the first two columns rendered. -/
def statement_text : Option DataFrame → String
  | none => "Not available"
  | some df => if df.isEmpty then "Not available" else df.firstTwoColsText

/-- The single try/except filling `financials_summary` (src/main.py lines
73-82).  The three statements are fetched sequentially inside one guard:
an exception while fetching a statement aborts the block, and the except
clause fills every key not yet assigned with "Error fetching." -- so a
failure on the balance sheet also degrades the cash-flow field. -/
def financials_summary_of (inc bal cf : Except String (Option DataFrame)) :
    FinancialsSummary :=
  match inc with
  | .error _ => ⟨"Error fetching.", "Error fetching.", "Error fetching."⟩
  | .ok oi =>
    match bal with
    | .error _ => ⟨statement_text oi, "Error fetching.", "Error fetching."⟩
    | .ok ob =>
      match cf with
      | .error _ => ⟨statement_text oi, statement_text ob, "Error fetching."⟩
      | .ok oc => ⟨statement_text oi, statement_text ob, statement_text oc⟩

/-- The fixed key list `relevant_info_keys` (src/main.py lines 93-99). -/
def relevant_info_keys : List String :=
  ["symbol", "longName", "sector", "industry", "country", "website",
   "marketCap", "enterpriseValue", "trailingPE", "forwardPE",
   "dividendYield", "beta", "52WeekChange", "shortRatio",
   "currentPrice", "targetHighPrice", "targetLowPrice", "targetMeanPrice",
   "recommendationKey", "numberOfAnalystOpinions"]

/-- The dict comprehension `{k: info.get(k, 'N/A') for k in relevant_info_keys}`
(src/main.py line 100), applied to the (already sanitized) info mapping. -/
def brief_info (info : Info) : Info :=
  relevant_info_keys.map (fun k => (k, getD info k (.vstr "N/A")))

/-- The dict `fetch_stock_data` returns (src/main.py lines 103-115). -/
structure StockSnapshot where
  ticker : String
  company_name : PyVal
  info : Info
  full_info_dump_for_display : Info
  sector : PyVal
  industry : PyVal
  summary : PyVal
  history_1y : DataFrame
  major_holders : Option String
  recommendations : String
  financials_summary : FinancialsSummary
  deriving DecidableEq

/-- `fetch_stock_data` (src/main.py lines 23-119).  The whole body sits in
one try/except returning `None` on an uncaught exception, so a failure of
`stock.info` or `stock.history` is fatal (`none`), while the supplementary
blocks catch their own exceptions and the function still returns a
snapshot.  Field values are read from the sanitized info mapping, and
`company_name` falls back to the ticker symbol, the other three profile
fields to "N/A". -/
def fetch_stock_data (ticker_symbol : String) (p : ProviderData) :
    Option StockSnapshot :=
  match p.info with
  | .error _ => none
  | .ok raw =>
    let info := sanitizeInfo raw
    match p.history_1y with
    | .error _ => none
    | .ok hist =>
      some
        { ticker := ticker_symbol
          company_name := getD info "longName" (.vstr ticker_symbol)
          info := brief_info info
          full_info_dump_for_display := info
          sector := getD info "sector" (.vstr "N/A")
          industry := getD info "industry" (.vstr "N/A")
          summary := getD info "longBusinessSummary" (.vstr "N/A")
          history_1y := hist
          major_holders := major_holders_of p.major_holders
          recommendations := recommendations_of p.recommendations
          financials_summary :=
            financials_summary_of p.quarterly_income_stmt
              p.quarterly_balance_sheet p.quarterly_cashflow }

/-- Modelled rendering of `pd.Series(info).to_string()` (src/main.py line
221): one line per entry.  No claim depends on the exact format, only on
it being some deterministic string. -/
def pd_series_to_string (info : Info) : String :=
  String.intercalate "\n" (info.map (fun kv => kv.1 ++ "    " ++ pyFormat kv.2))

/-- Python `s[:n]` on a string: the first `n` code points. -/
def pySlice (s : String) (n : Nat) : String :=
  String.mk (s.data.take n)

/-- F-string substitution of `stock_data['major_holders']`, whose value is
either a Python `None` or a string (src/main.py line 227). -/
def format_opt : Option String → String
  | none => "None"
  | some s => s

/-- Opening of the `stock_summary_for_llm` f-string, up to the summary
slot: the company identity lines and the "Business Summary: " label. -/
def summary_head (sd : StockSnapshot) (ticker_symbol : String) : String :=
  "\n    Company: " ++ pyFormat sd.company_name ++ " (" ++ ticker_symbol ++
  ")\n    Sector: " ++ pyFormat sd.sector ++
  "\n    Industry: " ++ pyFormat sd.industry ++
  "\n    Business Summary: "

/-- Remainder of the `stock_summary_for_llm` f-string after the summary
slot: key info, price trend, holders, recommendations and statements. -/
def summary_tail (sd : StockSnapshot) : String :=
  "... \n    \n    Key Financial Info (from stock.info):\n    " ++
  pd_series_to_string sd.info ++
  "\n\n    Recent Price Trend (Last 5 days of 1-year history):\n    " ++
  sd.history_1y.tailText ++
  "\n\n    Major Holders:\n    " ++ format_opt sd.major_holders ++
  "\n\n    Analyst Recommendations (Recent):\n    " ++ sd.recommendations ++
  "\n    \n    Quarterly Financials Summary:\n    Income Statement (Recent 2 Qtrs):\n    " ++
  sd.financials_summary.income_statement_quarterly ++
  "\n    \n    Balance Sheet (Recent 2 Qtrs):\n    " ++
  sd.financials_summary.balance_sheet_quarterly ++
  "\n    \n    Cash Flow (Recent 2 Qtrs):\n    " ++
  sd.financials_summary.cash_flow_quarterly ++
  "\n    "

/-- The `stock_summary_for_llm` f-string (src/main.py lines 214-241),
transcribed byte for byte around its substitution holes, for the case
that `stock_data['summary']` is the string `summary` (Python slices it
with `[:1000]` before substituting; slicing a non-string would raise
before any prompt exists). -/
def stock_summary_for_llm (sd : StockSnapshot) (summary : String)
    (ticker_symbol : String) : String :=
  summary_head sd ticker_symbol ++ pySlice summary 1000 ++ summary_tail sd

/-- The `web_summary_for_llm` expression (src/main.py line 244):
`"\n".join([f"- {result}" for result in web_search_results])`. -/
def web_summary_for_llm (web_search_results : List String) : String :=
  String.intercalate "\n" (web_search_results.map (fun result => "- " ++ result))

/-- Lead-in of the Report Requirements block, up to the first header. -/
def rr_head : String :=
  "\n\n    **Report Requirements (Please structure your report with these sections in Markdown format):**\n\n    1.  **"

/-- Section 1 body, between the first and second headers. -/
def rr_s1 : String :=
  ":**\n        * Brief description of the company, its core business, and market position.\n        * Mention its sector and industry.\n\n    2.  **"

/-- Section 2 body, between the second and third headers. -/
def rr_s2 : String :=
  ":**\n        * Comment on the key financial indicators provided (e.g., P/E ratios, market cap, dividend yield if available).\n        * Analyze the recent price trend (from the 1-year history snapshot).\n        * Discuss insights from the quarterly financial statements (income, balance sheet, cash flow).\n        * Mention any insights from major holders and analyst recommendations.\n\n    3.  **"

/-- Section 3 body, between the third and fourth headers. -/
def rr_s3 : String :=
  " Analysis:**\n        * Synthesize insights from the web search snippets.\n        * Discuss any recent news, events, or market sentiment that could impact the stock.\n        * (If web search snippets are limited, acknowledge this and focus on general market conditions for the sector if possible).\n\n    4.  **"

/-- Section 4 body, between the fourth and fifth headers. -/
def rr_s4 : String :=
  ":**\n        * Identify potential risks associated with investing in this stock (e.g., industry risks, company-specific risks, market volatility).\n\n    5.  **"

/-- Section 5 body, between the fifth and sixth headers. -/
def rr_s5 : String :=
  ":**\n        * Identify potential opportunities or growth drivers for the company.\n\n    6.  **"

/-- Section 6 body up to the quoted advice examples. -/
def rr_s6a : String :=
  ":**\n        * Provide a balanced summary of the findings.\n        * Conclude with a general outlook for the stock.\n        * **Important: Do NOT provide direct financial advice "

/-- The quoted negative examples of the prohibited direct recommendation. -/
def rr_quoted_examples : String :=
  "(e.g., \"buy,\" \"sell,\" \"hold\")"

/-- Tail of the block, after the quoted examples. -/
def rr_s6b : String :=
  ". Instead, offer an objective summary of potential upsides and downsides based on the data.**\n\n    Please generate a detailed and well-structured report in Markdown.\n    If some data is \"Not available\" or \"Error fetching\", acknowledge it and proceed with the available information.\n    "

/-- The constant tail of the prompt f-string, from the text right after
the `{web_summary_for_llm}` hole to the end of the template (src/main.py
lines 255-286): the Report Requirements instruction block.  It is written
factored around the six section headers and the quoted advice examples;
the concatenation is the source text byte for byte. -/
def report_requirements : String :=
  rr_head ++ "Company Overview" ++
  rr_s1 ++ "Financial Analysis" ++
  rr_s2 ++ "Market Sentiment and News" ++
  rr_s3 ++ "Risk Assessment" ++
  rr_s4 ++ "Opportunities and Growth Drivers" ++
  rr_s5 ++ "Investment Outlook Summary" ++
  rr_s6a ++ rr_quoted_examples ++ rr_s6b

/-- Opening of the prompt f-string, up to the `{stock_summary_for_llm}`
hole. -/
def prompt_intro (stock_name ticker_symbol : String) : String :=
  "\n    You are an expert financial analyst. Your task is to generate a comprehensive investment report for " ++
  stock_name ++ " (" ++ ticker_symbol ++
  ").\n    Use the provided stock data and recent web search information.\n\n    **Provided Stock Data:**\n    "

/-- The constant between the `{stock_summary_for_llm}` and
`{web_summary_for_llm}` holes of the prompt f-string. -/
def web_sep : String :=
  "\n\n    **Recent Web Search Snippets/Information:**\n    "

/-- The full prompt f-string (src/main.py lines 246-286) for a snapshot
whose `summary` value is the string `summary`. -/
def prompt_text (sd : StockSnapshot) (summary : String)
    (web_search_results : List String) (stock_name ticker_symbol : String) :
    String :=
  prompt_intro stock_name ticker_symbol ++
  stock_summary_for_llm sd summary ticker_symbol ++
  web_sep ++
  web_summary_for_llm web_search_results ++
  report_requirements

/-- Prompt assembly inside `generate_report_with_llm` (src/main.py lines
210-286).  The expression `stock_data['summary'][:1000]` slices the
summary value: for a string it yields its first 1000 characters; for a
non-string value the slicing (or the surrounding formatting) raises an
uncaught TypeError before any prompt exists, modelled as `none`.  Every
snapshot whose provider delivers a string summary (or none at all, giving
the "N/A" default) takes the `some` branch. -/
def build_prompt (stock_data : StockSnapshot) (web_search_results : List String)
    (stock_name ticker_symbol : String) : Option String :=
  match stock_data.summary with
  | .vstr s => some (prompt_text stock_data s web_search_results stock_name ticker_symbol)
  | _ => none

/-- Process-wide Groq configuration state (src/main.py lines 13-19):
whether `GROQ_API_KEY` was set, and whether the `client` object is not
`None`. -/
structure GroqConfig where
  GROQ_API_KEY_SET : Bool
  client_ok : Bool

/-- What `generate_report_with_llm` produces: the returned string, and how
many chat-completion requests were issued on the way. -/
structure GenResult where
  output : String
  llm_calls : Nat
  deriving DecidableEq

/-- The fixed not-configured message (src/main.py line 208). -/
def not_configured_msg : String :=
  "Groq API key not configured. Please set the GROQ_API_KEY environment variable."

/-- `generate_report_with_llm` (src/main.py lines 203-309).  The `llm`
oracle models the single `client.chat.completions.create` call: `.error e`
is a raised exception with message `e`, `.ok choices` a response whose
choices carry the given message contents.  The guard at line 207 returns
the fixed message before any call; the try/except at lines 288-309
converts any exception from the call (or from the empty-`choices`
`choices[0]` IndexError) into the failure string; `none` models the one
unguarded way out, an exception while the prompt is assembled from a
non-string summary. -/
def generate_report_with_llm (cfg : GroqConfig)
    (llm : String → Except String (List String)) (stock_data : StockSnapshot)
    (web_search_results : List String) (stock_name ticker_symbol : String) :
    Option GenResult :=
  if !cfg.GROQ_API_KEY_SET || !cfg.client_ok then
    some { output := not_configured_msg, llm_calls := 0 }
  else
    match build_prompt stock_data web_search_results stock_name ticker_symbol with
    | none => none
    | some prompt =>
      match llm prompt with
      | .error e =>
          some { output := "Failed to generate report: " ++ e, llm_calls := 1 }
      | .ok choices =>
          match choices.head? with
          | none =>
              some { output := "Failed to generate report: list index out of range",
                     llm_calls := 1 }
          | some content => some { output := content, llm_calls := 1 }

/-- Does the character list start with the word `w` followed by a word
boundary (a non-letter or the end)?  Used to find the standalone
occurrences of a word, as opposed to occurrences inside a longer word
such as "hold" inside "holders". -/
def word_here (w : List Char) : List Char → Bool
  | [] => w.isEmpty
  | c :: cs =>
    match w with
    | [] => !c.isAlpha
    | a :: ws => a == c && word_here ws cs

/-- A word boundary on the left: the start of the text or a non-letter. -/
def boundary_ok : Option Char → Bool
  | none => true
  | some c => !c.isAlpha

/-- Scans the text and checks that every standalone occurrence of the word
`w` is immediately preceded by a double-quote character, i.e. that the
word only ever appears as a quoted example.  `prev` is the character just
before the current position. -/
def quoted_word_only (w : List Char) : Option Char → List Char → Bool
  | _, [] => true
  | prev, c :: cs =>
      if boundary_ok prev && word_here w (c :: cs) && !(prev == some '"') then
        false
      else
        quoted_word_only w (some c) cs

/-! Concrete provider scenarios used by the witnesses and counterexamples. -/

/-- A non-empty DataFrame with distinguishable renderings. -/
def dfNE : DataFrame :=
  { isEmpty := false, text := "HOLDERS", tailText := "TAIL", firstTwoColsText := "COLS" }

/-- An empty DataFrame. -/
def dfEmpty : DataFrame :=
  { isEmpty := true, text := "", tailText := "", firstTwoColsText := "" }

/-- A provider on which every retrieval succeeds; the profile mapping is
empty, so every profile field falls back to its default. -/
def pOk : ProviderData :=
  { info := .ok []
    history_1y := .ok dfNE
    major_holders := .ok (some dfNE)
    recommendations := .ok (some dfNE)
    quarterly_income_stmt := .ok (some dfNE)
    quarterly_balance_sheet := .ok (some dfNE)
    quarterly_cashflow := .ok (some dfNE) }

/-- The snapshot `fetch_stock_data "AAPL" pOk` returns. -/
def snapOk : StockSnapshot :=
  { ticker := "AAPL"
    company_name := .vstr "AAPL"
    info := brief_info []
    full_info_dump_for_display := []
    sector := .vstr "N/A"
    industry := .vstr "N/A"
    summary := .vstr "N/A"
    history_1y := dfNE
    major_holders := some "HOLDERS"
    recommendations := "TAIL"
    financials_summary := ⟨"COLS", "COLS", "COLS"⟩ }

/-- Like `pOk` but the balance-sheet retrieval raises. -/
def pBalErr : ProviderData :=
  { pOk with quarterly_balance_sheet := .error "boom" }

/-- The snapshot `fetch_stock_data "AAPL" pBalErr` returns: the cash-flow
field is degraded although its own retrieval succeeded non-empty. -/
def snapBalErr : StockSnapshot :=
  { snapOk with financials_summary := ⟨"COLS", "Error fetching.", "Error fetching."⟩ }

/-- Like `pOk` but `stock.major_holders` returns `None`. -/
def pMHNone : ProviderData :=
  { pOk with major_holders := .ok none }

/-- The snapshot `fetch_stock_data "AAPL" pMHNone` returns. -/
def snapMHNone : StockSnapshot :=
  { snapOk with major_holders := none }

/-- A profile mapping holding one non-serializable officers list. -/
def rawOfficers : Info :=
  [("companyOfficers", .vcomplex true false "[officer records]")]

/-- Configuration with the API key missing. -/
def cfgNoKey : GroqConfig := { GROQ_API_KEY_SET := false, client_ok := false }

/-- Configuration with the key set and the client constructed. -/
def cfgOk : GroqConfig := { GROQ_API_KEY_SET := true, client_ok := true }

/-- A transport that raises on every request. -/
def llmFail : String → Except String (List String) := fun _ => .error "boom"

/-- A 5000-character business summary, for exercising the truncation. -/
def longSummary : String := String.mk (List.replicate 5000 'a')

/-- A snapshot whose business summary has 5000 characters. -/
def snapLong : StockSnapshot := { snapOk with summary := .vstr longSummary }

/-- The prompt built for `snapOk` with one web snippet. -/
def promptOk : String := (build_prompt snapOk ["web"] "Apple" "AAPL").getD ""

/-! Helper lemmas shared by several claims. -/

theorem sanitizeVal_idem : ∀ v : PyVal, sanitizeVal (sanitizeVal v) = sanitizeVal v
  | .vstr _ => rfl
  | .vint _ => rfl
  | .vfloat _ => rfl
  | .vbool _ => rfl
  | .vnone => rfl
  | .vcomplex _ ser _ => by cases ser <;> rfl

theorem sanitizeVal_eq_self (v : PyVal) :
    sanitizeVal v = v ↔ serializable_now v = true := by
  cases v with
  | vcomplex h ser t => cases ser <;> simp [sanitizeVal, serializable_now]
  | _ => simp [sanitizeVal, serializable_now]

theorem lookup_sanitizeInfo (m : Info) (k : String) :
    (sanitizeInfo m).lookup k = (m.lookup k).map sanitizeVal := by
  induction m with
  | nil => rfl
  | cons kv t ih =>
    cases kv with
    | mk a v =>
      simp only [sanitizeInfo, List.map_cons, List.lookup]
      cases k == a <;> simp_all [sanitizeInfo]

theorem fetch_stock_data_ok (ticker_symbol : String) (p : ProviderData)
    (raw : Info) (hist : DataFrame)
    (hinfo : p.info = .ok raw) (hhist : p.history_1y = .ok hist) :
    fetch_stock_data ticker_symbol p = some
      { ticker := ticker_symbol
        company_name := getD (sanitizeInfo raw) "longName" (.vstr ticker_symbol)
        info := brief_info (sanitizeInfo raw)
        full_info_dump_for_display := sanitizeInfo raw
        sector := getD (sanitizeInfo raw) "sector" (.vstr "N/A")
        industry := getD (sanitizeInfo raw) "industry" (.vstr "N/A")
        summary := getD (sanitizeInfo raw) "longBusinessSummary" (.vstr "N/A")
        history_1y := hist
        major_holders := major_holders_of p.major_holders
        recommendations := recommendations_of p.recommendations
        financials_summary := financials_summary_of p.quarterly_income_stmt
          p.quarterly_balance_sheet p.quarterly_cashflow } := by
  simp [fetch_stock_data, hinfo, hhist]

/-! Claim theorems. -/

/-- C2: the sanitization step of `fetch_stock_data` is idempotent --
sanitizing an already-sanitized mapping yields the same mapping. -/
theorem c2_sanitize_idempotent (m : Info) :
    sanitizeInfo (sanitizeInfo m) = sanitizeInfo m := by
  induction m with
  | nil => rfl
  | cons kv t ih => simp [sanitizeInfo, sanitizeVal_idem, ih] at ih ⊢

/-- C3 counterexample: the sanitize step is not free of side effects on its
input.  For the mapping `rawOfficers`, whose officers list is not
JSON-serializable, the post-loop state of the (in-place mutated) dict
differs from the mapping that was passed in. -/
theorem c3_counterexample : sanitizeInfo rawOfficers ≠ rawOfficers := by decide

/-- C3 amended: the sanitize step mutates the raw info mapping in place;
the caller-visible mapping afterwards is `sanitizeInfo raw`, and it equals
the original mapping exactly when every value in it is already
serializable (so sanitization replaced nothing). -/
theorem c3_amended_inplace (m : Info) :
    sanitizeInfo m = m ↔ ∀ kv ∈ m, serializable_now kv.2 = true := by
  induction m with
  | nil => simp [sanitizeInfo]
  | cons kv t ih =>
    cases kv with
    | mk k v =>
      simp only [sanitizeInfo, List.map_cons, List.cons.injEq, Prod.mk.injEq,
        List.mem_cons, forall_eq_or_imp] at ih ⊢
      rw [sanitizeVal_eq_self] at *
      constructor
      · rintro ⟨⟨-, hv⟩, ht⟩
        exact ⟨hv, ih.mp ht⟩
      · rintro ⟨hv, ht⟩
        exact ⟨⟨trivial, hv⟩, ih.mpr ht⟩

/-- C1 counterexample: the four supplementary retrievals are not all
independently guarded with per-field sentinels.  On `pBalErr` the primary
retrievals succeed and only the balance-sheet retrieval raises, yet the
returned snapshot carries the "Error fetching." sentinel in the cash-flow
field as well, whose own retrieval succeeded with a non-empty table -- so
a failure does not degrade "that field (and only that field)". -/
theorem c1_counterexample :
    fetch_stock_data "AAPL" pBalErr = some snapBalErr ∧
    pBalErr.quarterly_cashflow = Except.ok (some dfNE) ∧
    dfNE.isEmpty = false ∧
    snapBalErr.financials_summary.cash_flow_quarterly = "Error fetching." :=
  ⟨rfl, rfl, rfl, rfl⟩

/-- C1 amended: when the primary profile and history retrievals succeed,
`fetch_stock_data` always returns a snapshot, whatever the supplementary
retrievals do.  An exception in the holders or recommendations retrieval
sets exactly that field to the sentinel string, and a holders table that
comes back `None` leaves the field as the null value; the three quarterly
statements however share a single guard, so an exception while fetching
one statement sets that statement and every later statement to
"Error fetching.", keeping only the statements already fetched. -/
theorem c1_amended_degradation (ticker_symbol : String) (p : ProviderData)
    (raw : Info) (hist : DataFrame) (snap : StockSnapshot)
    (e : String) (oi ob : Option DataFrame)
    (hinfo : p.info = .ok raw) (hhist : p.history_1y = .ok hist)
    (hfetch : fetch_stock_data ticker_symbol p = some snap) :
    (fetch_stock_data ticker_symbol p).isSome = true ∧
    (p.major_holders = .error e →
      snap.major_holders = some "Not available or error fetching.") ∧
    (p.major_holders = .ok none → snap.major_holders = none) ∧
    (p.recommendations = .error e →
      snap.recommendations = "Not available or error fetching.") ∧
    (p.quarterly_income_stmt = .error e →
      snap.financials_summary =
        ⟨"Error fetching.", "Error fetching.", "Error fetching."⟩) ∧
    (p.quarterly_income_stmt = .ok oi → p.quarterly_balance_sheet = .error e →
      snap.financials_summary =
        ⟨statement_text oi, "Error fetching.", "Error fetching."⟩) ∧
    (p.quarterly_income_stmt = .ok oi → p.quarterly_balance_sheet = .ok ob →
      p.quarterly_cashflow = .error e →
      snap.financials_summary =
        ⟨statement_text oi, statement_text ob, "Error fetching."⟩) := by
  have hok := fetch_stock_data_ok ticker_symbol p raw hist hinfo hhist
  rw [hfetch] at hok
  obtain rfl := (Option.some.injEq _ _).mp hok.symm
  refine ⟨by rw [hfetch]; rfl, ?_, ?_, ?_, ?_, ?_, ?_⟩
  · intro h; simp [major_holders_of, h]
  · intro h; simp [major_holders_of, h]
  · intro h; simp [recommendations_of, h]
  · intro h; simp [financials_summary_of, h]
  · intro h1 h2; simp [financials_summary_of, h1, h2]
  · intro h1 h2 h3; simp [financials_summary_of, h1, h2, h3]

/-- C1 witness: on the concrete balance-sheet-failure scenario the fetch
still returns a snapshot and the statement fields degrade as described. -/
theorem c1_witness :
    (fetch_stock_data "AAPL" pBalErr).isSome = true ∧
    snapBalErr.financials_summary =
      ⟨statement_text (some dfNE), "Error fetching.", "Error fetching."⟩ := by
  have h := c1_amended_degradation "AAPL" pBalErr [] dfNE snapBalErr "boom"
    (some dfNE) (some dfNE) rfl rfl rfl
  exact ⟨h.1, h.2.2.2.2.2.1 rfl rfl⟩

/-- C4: for every provider whose primary profile retrieval succeeds, the
returned snapshot's `info` mapping is built from the fixed key list
`relevant_info_keys` -- its keys are exactly that list, in order, and each
key is bound to the (sanitized) provider value, or to "N/A" when the key
is absent from the profile mapping. -/
theorem c4_brief_info_fixed_keys (ticker_symbol : String) (p : ProviderData)
    (raw : Info) (snap : StockSnapshot)
    (hinfo : p.info = .ok raw)
    (hfetch : fetch_stock_data ticker_symbol p = some snap) :
    snap.info.map Prod.fst = relevant_info_keys ∧
    snap.info = relevant_info_keys.map
      (fun k => (k, getD (sanitizeInfo raw) k (PyVal.vstr "N/A"))) := by
  cases hhist : p.history_1y with
  | error e => simp [fetch_stock_data, hinfo, hhist] at hfetch
  | ok hist =>
    have hok := fetch_stock_data_ok ticker_symbol p raw hist hinfo hhist
    rw [hfetch] at hok
    obtain rfl := (Option.some.injEq _ _).mp hok.symm
    constructor
    · have hid : (Prod.fst ∘ fun k : String =>
          (k, getD (sanitizeInfo raw) k (PyVal.vstr "N/A"))) = id := rfl
      simp [brief_info, List.map_map, hid]
    · rfl

/-- C4 witness: the fixed-key property at the concrete provider `pOk`. -/
theorem c4_witness :
    snapOk.info.map Prod.fst = relevant_info_keys ∧
    snapOk.info = relevant_info_keys.map
      (fun k => (k, getD (sanitizeInfo []) k (PyVal.vstr "N/A"))) :=
  c4_brief_info_fixed_keys "AAPL" pOk [] snapOk rfl rfl

/-- C9 counterexample: a valid primary response whose profile mapping has
no `longName` key does not give the sentinel "N/A" as company name -- the
code falls back to the submitted ticker symbol instead. -/
theorem c9_counterexample :
    fetch_stock_data "AAPL" pOk = some snapOk ∧
    pOk.info = Except.ok ([] : Info) ∧
    ([] : Info).lookup "longName" = none ∧
    snapOk.company_name ≠ PyVal.vstr "N/A" := by
  refine ⟨rfl, rfl, rfl, ?_⟩
  decide

/-- C9 amended: when the primary retrieval succeeds and the profile
mapping lacks the respective keys, the snapshot's `company_name` is the
submitted ticker symbol (not "N/A"), while `sector`, `industry` and the
business summary each default to the sentinel "N/A". -/
theorem c9_amended_defaults (ticker_symbol : String) (p : ProviderData)
    (raw : Info) (snap : StockSnapshot)
    (hinfo : p.info = .ok raw)
    (hfetch : fetch_stock_data ticker_symbol p = some snap) :
    (raw.lookup "longName" = none →
      snap.company_name = .vstr ticker_symbol) ∧
    (raw.lookup "sector" = none → snap.sector = .vstr "N/A") ∧
    (raw.lookup "industry" = none → snap.industry = .vstr "N/A") ∧
    (raw.lookup "longBusinessSummary" = none →
      snap.summary = .vstr "N/A") := by
  cases hhist : p.history_1y with
  | error e => simp [fetch_stock_data, hinfo, hhist] at hfetch
  | ok hist =>
    have hok := fetch_stock_data_ok ticker_symbol p raw hist hinfo hhist
    rw [hfetch] at hok
    obtain rfl := (Option.some.injEq _ _).mp hok.symm
    refine ⟨?_, ?_, ?_, ?_⟩ <;> intro h <;>
      simp [getD, lookup_sanitizeInfo, h]

/-- C9 witness: the defaults at the concrete provider `pOk`, whose
profile mapping is empty. -/
theorem c9_witness :
    snapOk.company_name = .vstr "AAPL" ∧
    snapOk.sector = .vstr "N/A" ∧
    snapOk.industry = .vstr "N/A" ∧
    snapOk.summary = .vstr "N/A" := by
  have h := c9_amended_defaults "AAPL" pOk [] snapOk rfl rfl
  exact ⟨h.1 rfl, h.2.1 rfl, h.2.2.1 rfl, h.2.2.2 rfl⟩

/-- C10: when the primary retrieval succeeds and `stock.major_holders`
comes back `None` or an empty table without raising, the snapshot's
`major_holders` field is the null value `none` (Python `None`), not a
sentinel string. -/
theorem c10_major_holders_none (ticker_symbol : String) (p : ProviderData)
    (snap : StockSnapshot) (df : DataFrame)
    (hfetch : fetch_stock_data ticker_symbol p = some snap) :
    (p.major_holders = .ok none → snap.major_holders = none) ∧
    (p.major_holders = .ok (some df) → df.isEmpty = true →
      snap.major_holders = none) := by
  cases hpi : p.info with
  | error e => simp [fetch_stock_data, hpi] at hfetch
  | ok raw =>
    cases hhist : p.history_1y with
    | error e => simp [fetch_stock_data, hpi, hhist] at hfetch
    | ok hist =>
      have hok := fetch_stock_data_ok ticker_symbol p raw hist hpi hhist
      rw [hfetch] at hok
      obtain rfl := (Option.some.injEq _ _).mp hok.symm
      constructor
      · intro h; simp [major_holders_of, h]
      · intro h hemp; simp [major_holders_of, h, hemp]

/-- C10 witness: on `pMHNone`, where the holders table comes back `None`,
the snapshot's holders field is the null value. -/
theorem c10_witness :
    fetch_stock_data "AAPL" pMHNone = some snapMHNone ∧
    snapMHNone.major_holders = none :=
  ⟨rfl, (c10_major_holders_none "AAPL" pMHNone snapMHNone dfEmpty rfl).1 rfl⟩

theorem prompt_text_split (sd : StockSnapshot) (s : String) (web : List String)
    (stock_name ticker_symbol : String) :
    prompt_text sd s web stock_name ticker_symbol =
      (prompt_intro stock_name ticker_symbol ++
       stock_summary_for_llm sd s ticker_symbol ++
       web_sep ++ web_summary_for_llm web) ++ report_requirements := by
  simp [prompt_text, String.append_assoc]

/-- C5: the prompt builder embeds only the first 1000 characters of the
business summary.  For every snapshot whose summary is the string `s`
(in particular one of 5000 characters), the built prompt is some string
with `pySlice s 1000` in the summary slot, and that embedded text has at
most 1000 characters. -/
theorem c5_summary_truncated (sd : StockSnapshot) (web : List String)
    (stock_name ticker_symbol s : String) (hs : sd.summary = .vstr s) :
    ∃ pre post, build_prompt sd web stock_name ticker_symbol =
      some (pre ++ (pySlice s 1000 ++ post)) ∧
      (pySlice s 1000).length ≤ 1000 := by
  refine ⟨prompt_intro stock_name ticker_symbol ++ summary_head sd ticker_symbol,
    summary_tail sd ++ (web_sep ++ (web_summary_for_llm web ++ report_requirements)),
    ?_, ?_⟩
  · simp [build_prompt, hs, prompt_text, stock_summary_for_llm, String.append_assoc]
  · show (s.data.take 1000).length ≤ 1000
    rw [List.length_take]
    exact Nat.min_le_left _ _

/-- C5 witness: the truncation at a concrete snapshot whose summary has
5000 characters. -/
theorem c5_witness :
    longSummary.length = 5000 ∧
    ∃ pre post, build_prompt snapLong ["web"] "Apple" "AAPL" =
      some (pre ++ (pySlice longSummary 1000 ++ post)) ∧
      (pySlice longSummary 1000).length ≤ 1000 :=
  ⟨by show (List.replicate 5000 'a').length = 5000
      exact List.length_replicate 5000 'a',
   c5_summary_truncated snapLong ["web"] "Apple" "AAPL" longSummary rfl⟩

theorem quoted_only_buy :
    quoted_word_only ("buy".data) none report_requirements.data = true := by
  decide

theorem quoted_only_sell :
    quoted_word_only ("sell".data) none report_requirements.data = true := by
  decide

theorem quoted_only_hold :
    quoted_word_only ("hold".data) none report_requirements.data = true := by
  decide

/-- C6: every built prompt contains the six section headers verbatim and
in the fixed order, ends in the constant Report Requirements instruction
block, and in that block each standalone occurrence of the words "buy",
"sell" and "hold" is immediately preceded by a double quote -- the words
occur only inside the quoted negative example of the prohibited direct
recommendation, which is itself present. -/
theorem c6_sections_and_no_direct_advice (sd : StockSnapshot)
    (web : List String) (stock_name ticker_symbol P : String)
    (hP : build_prompt sd web stock_name ticker_symbol = some P) :
    (∃ s0 s1 s2 s3 s4 s5 s6,
      P = s0 ++ ("Company Overview" ++ (s1 ++ ("Financial Analysis" ++
        (s2 ++ ("Market Sentiment and News" ++ (s3 ++ ("Risk Assessment" ++
        (s4 ++ ("Opportunities and Growth Drivers" ++ (s5 ++
        ("Investment Outlook Summary" ++ s6)))))))))))) ∧
    (∃ u, P = u ++ report_requirements) ∧
    (∃ v w, report_requirements = v ++ (rr_quoted_examples ++ w)) ∧
    quoted_word_only ("buy".data) none report_requirements.data = true ∧
    quoted_word_only ("sell".data) none report_requirements.data = true ∧
    quoted_word_only ("hold".data) none report_requirements.data = true := by
  cases hsum : sd.summary with
  | vstr s =>
    simp only [build_prompt, hsum, Option.some.injEq] at hP
    subst hP
    rw [prompt_text_split]
    refine ⟨?_, ?_, ?_, quoted_only_buy, quoted_only_sell, quoted_only_hold⟩
    · refine ⟨(prompt_intro stock_name ticker_symbol ++
        stock_summary_for_llm sd s ticker_symbol ++
        web_sep ++ web_summary_for_llm web) ++ rr_head,
        rr_s1, rr_s2, rr_s3, rr_s4, rr_s5,
        rr_s6a ++ (rr_quoted_examples ++ rr_s6b), ?_⟩
      simp [report_requirements, String.append_assoc]
    · exact ⟨_, rfl⟩
    · refine ⟨rr_head ++ "Company Overview" ++ rr_s1 ++ "Financial Analysis" ++
        rr_s2 ++ "Market Sentiment and News" ++ rr_s3 ++ "Risk Assessment" ++
        rr_s4 ++ "Opportunities and Growth Drivers" ++ rr_s5 ++
        "Investment Outlook Summary" ++ rr_s6a, rr_s6b, ?_⟩
      simp [report_requirements, String.append_assoc]
  | vint n => simp [build_prompt, hsum] at hP
  | vfloat t => simp [build_prompt, hsum] at hP
  | vbool b => simp [build_prompt, hsum] at hP
  | vnone => simp [build_prompt, hsum] at hP
  | vcomplex h ser t => simp [build_prompt, hsum] at hP

/-- C6 witness: the section-header and no-direct-advice properties at the
concretely built prompt `promptOk`. -/
theorem c6_witness :
    (∃ s0 s1 s2 s3 s4 s5 s6,
      promptOk = s0 ++ ("Company Overview" ++ (s1 ++ ("Financial Analysis" ++
        (s2 ++ ("Market Sentiment and News" ++ (s3 ++ ("Risk Assessment" ++
        (s4 ++ ("Opportunities and Growth Drivers" ++ (s5 ++
        ("Investment Outlook Summary" ++ s6)))))))))))) ∧
    (∃ u, promptOk = u ++ report_requirements) ∧
    (∃ v w, report_requirements = v ++ (rr_quoted_examples ++ w)) ∧
    quoted_word_only ("buy".data) none report_requirements.data = true ∧
    quoted_word_only ("sell".data) none report_requirements.data = true ∧
    quoted_word_only ("hold".data) none report_requirements.data = true :=
  c6_sections_and_no_direct_advice snapOk ["web"] "Apple" "AAPL" promptOk rfl

/-- C7: with no configured credential, `generate_report_with_llm` returns
the fixed not-configured message and issues zero chat-completion calls,
whatever the transport, snapshot and inputs are. -/
theorem c7_no_key_fixed_message (cfg : GroqConfig)
    (llm : String → Except String (List String)) (sd : StockSnapshot)
    (web : List String) (stock_name ticker_symbol : String)
    (hkey : cfg.GROQ_API_KEY_SET = false) :
    generate_report_with_llm cfg llm sd web stock_name ticker_symbol =
      some { output := not_configured_msg, llm_calls := 0 } := by
  simp [generate_report_with_llm, hkey]

/-- C7 witness: the short-circuit at a concrete unconfigured state. -/
theorem c7_witness :
    generate_report_with_llm cfgNoKey llmFail snapOk ["web"] "Apple" "AAPL" =
      some { output := not_configured_msg, llm_calls := 0 } :=
  c7_no_key_fixed_message cfgNoKey llmFail snapOk ["web"] "Apple" "AAPL" rfl

/-- C8: when the credential is configured and the chat-completion call
raises (the transport fails on every request with message `e`), the
caller still receives a string result: the descriptive failure string
embedding the underlying error detail, after the one attempted call. -/
theorem c8_transport_failure_string (cfg : GroqConfig)
    (llm : String → Except String (List String)) (sd : StockSnapshot)
    (web : List String) (stock_name ticker_symbol s e : String)
    (hkey : cfg.GROQ_API_KEY_SET = true) (hcl : cfg.client_ok = true)
    (hs : sd.summary = .vstr s) (hllm : ∀ q, llm q = .error e) :
    generate_report_with_llm cfg llm sd web stock_name ticker_symbol =
      some { output := "Failed to generate report: " ++ e, llm_calls := 1 } := by
  simp [generate_report_with_llm, hkey, hcl, build_prompt, hs, hllm]

/-- C8 witness: the failure string at a concrete always-raising transport. -/
theorem c8_witness :
    generate_report_with_llm cfgOk llmFail snapOk ["web"] "Apple" "AAPL" =
      some { output := "Failed to generate report: " ++ "boom", llm_calls := 1 } :=
  c8_transport_failure_string cfgOk llmFail snapOk ["web"] "Apple" "AAPL"
    "N/A" "boom" rfl rfl rfl (fun _ => rfl)

end Finance
